import Mathlib

/-
Verification of the Emora voice-authentication core.

The development shallowly embeds the voice-biometric pipeline of the
repository: the passphrase normalizer of app.py (normalize_phrase,
lines 153-173), the feature extractor, profile store, similarity engine
and verification orchestrator of voice_auth.py (class VoiceAuthenticator),
and the verification route of app.py (verify_voice, lines 676-753).

Modelling conventions:
  - Python str is modelled as List Char; str.replace, str.lower, str.strip
    and the regex character filter are defined below on List Char.
  - Python float is modelled as the exact rationals; the real-valued
    cosine-similarity score is modelled over the reals, with the
    float square root idealized as Real.sqrt.
  - Python dicts of features are association lists List (String × Rat);
    dict lookup takes the first matching key.
  - File-system state (the per-user JSON profile store) is a function
    from user id to an optional profile record; the per-call scratch
    file of extract_voice_features is tracked by a Boolean recording
    whether the file still exists when the call returns.
  - The external audio decoder and librosa feature computations are
    collaborators: an AudioEnv record supplies their outcomes (decode
    success and resulting sample count and rate, whether the feature
    computation raises, and the computed descriptor values).
-/

/-! ## Python string model: str.lower, str.replace, the regex filter, str.strip -/

/-- Python str.lower restricted to ASCII letters (all inputs the
normalizer receives in the repository are ASCII). -/
def lowerAscii (s : List Char) : List Char :=
  s.map (fun c => if 'A' ≤ c ∧ c ≤ 'Z' then Char.ofNat (c.toNat + 32) else c)

/-- Fuel-based worker for str.replace: replaces non-overlapping occurrences
of pat left to right. The fuel is the length of the scanned string, which
bounds the number of recursion steps since every step consumes at least one
character. -/
def replaceAllAux (pat repl : List Char) : Nat → List Char → List Char
  | _, [] => []
  | 0, s => s
  | fuel + 1, c :: cs =>
    if pat.isPrefixOf (c :: cs) then
      repl ++ replaceAllAux pat repl fuel ((c :: cs).drop pat.length)
    else
      c :: replaceAllAux pat repl fuel cs

/-- Python str.replace: s.replace(pat, repl), all non-overlapping
occurrences, scanning left to right. -/
def strReplace (s pat repl : List Char) : List Char :=
  replaceAllAux pat repl s.length s

/-- Characters kept by the regex re.sub(r"[^a-z0-9 ]", "", phrase):
lowercase ASCII letters, digits, and the space character. -/
def keepAlnumSpace (s : List Char) : List Char :=
  s.filter (fun c => decide (('a' ≤ c ∧ c ≤ 'z') ∨ ('0' ≤ c ∧ c ≤ '9') ∨ c = ' '))

/-- Whitespace characters removed by Python str.strip() with no argument. -/
def isPySpace (c : Char) : Bool :=
  c == ' ' || c == '\t' || c == '\n' || c == '\r' || c == '\x0b' || c == '\x0c'

/-- Python str.strip(): drop leading and trailing whitespace. -/
def pyStrip (s : List Char) : List Char :=
  ((s.dropWhile isPySpace).reverse.dropWhile isPySpace).reverse

/-! ## Passphrase normalizer: app.py normalize_phrase (lines 153-173) -/

/-- app.py normalize_phrase: lower-case, expand the fixed contraction table
in source order (irregular forms first, then the generic suffix rules),
strip every character that is not a lowercase letter, digit or space,
and trim surrounding whitespace. -/
def normalize_phrase (phrase : List Char) : List Char :=
  let p1 := lowerAscii phrase
  let p2 := strReplace p1 ("i\x27m").toList ("i am").toList
  let p3 := strReplace p2 ("you\x27re").toList ("you are").toList
  let p4 := strReplace p3 ("he\x27s").toList ("he is").toList
  let p5 := strReplace p4 ("she\x27s").toList ("she is").toList
  let p6 := strReplace p5 ("it\x27s").toList ("it is").toList
  let p7 := strReplace p6 ("we\x27re").toList ("we are").toList
  let p8 := strReplace p7 ("they\x27re").toList ("they are").toList
  let p9 := strReplace p8 ("can\x27t").toList ("cannot").toList
  let p10 := strReplace p9 ("won\x27t").toList ("will not").toList
  let p11 := strReplace p10 ("n\x27t").toList (" not").toList
  let p12 := strReplace p11 ("\x27re").toList (" are").toList
  let p13 := strReplace p12 ("\x27s").toList (" is").toList
  let p14 := strReplace p13 ("\x27d").toList (" would").toList
  let p15 := strReplace p14 ("\x27ll").toList (" will").toList
  let p16 := strReplace p15 ("\x27ve").toList (" have").toList
  let p17 := strReplace p16 ("\x27m").toList (" am").toList
  pyStrip (keepAlnumSpace p17)

/-! ## Feature mappings and the similarity engine: voice_auth.py calculate_similarity (lines 238-291) -/

/-- A Python feature dictionary: feature name to float value,
floats modelled as exact rationals. -/
abbrev FeatMap := List (String × ℚ)

/-- Keys of a feature dictionary. -/
def keysOf (f : FeatMap) : List String := f.map Prod.fst

/-- Dictionary lookup, first matching key (keys of a Python dict are
unique, so the first match is the only one). Absent keys are never read
by the code; they default to 0 here. -/
def lookupF : FeatMap → String → ℚ
  | [], _ => 0
  | (k, v) :: rest, key => if k = key then v else lookupF rest key

/-- Code-point comparison of strings, the order Python sorted() uses on
str values (lexicographic on code points). -/
def lexLe : List Char → List Char → Bool
  | [], _ => true
  | _ :: _, [] => false
  | a :: as, b :: bs =>
    if a.toNat < b.toNat then true
    else if b.toNat < a.toNat then false
    else lexLe as bs

/-- Insert into a sorted list of keys. -/
def insertSorted (k : String) : List String → List String
  | [] => [k]
  | x :: xs => if lexLe k.toList x.toList then k :: x :: xs else x :: insertSorted k xs

/-- Insertion sort over key lists: Python sorted(). -/
def sortKeys : List String → List String
  | [] => []
  | x :: xs => insertSorted x (sortKeys xs)

/-- feature_names = sorted(set(features1.keys()) AND set(features2.keys())):
the sorted, duplicate-free list of keys present in both mappings. -/
def commonNames (features1 features2 : FeatMap) : List String :=
  sortKeys (((keysOf features1).filter (fun k => decide (k ∈ keysOf features2))).dedup)

/-- np.all(vector == 0): every entry of the vector is zero. -/
def AllZero (v : List ℚ) : Prop := ∀ x ∈ v, x = 0

instance (v : List ℚ) : Decidable (AllZero v) := List.decidableBAll _ v

/-- Dot product of two vectors (trailing entries of the longer one are
dropped, as with zip; the code only applies it to equal-length vectors). -/
def dotQ (v w : List ℚ) : ℚ := ((v.zip w).map (fun p => p.1 * p.2)).sum

/-- Squared Euclidean norm: np.linalg.norm(v) squared, i.e. the dot
product of v with itself. -/
def normSq (v : List ℚ) : ℚ := dotQ v v

/-- The numerical floor 1e-8 the code compares each Euclidean norm
against before normalizing. -/
def norm_floor : ℚ := 1e-8

/-- voice_auth.py calculate_similarity (lines 238-291).

Control flow of the source:
  1. feature_names = sorted common keys; empty intersection returns 0.0;
  2. vectors over the common keys in sorted order;
  3. if either vector is all zeros, return 0.0;
  4. norm1 = np.linalg.norm(vector1), norm2 likewise; if either is
     below 1e-8, return 0.0 — modelled by comparing the squared norms
     against 1e-8 squared, which is equivalent since both sides are
     nonnegative and squaring is monotone there;
  5. normalize both vectors and take their sklearn cosine similarity;
     in exact arithmetic that value is dot(v1, v2) / (norm1 * norm2),
     with the float square root idealized as Real.sqrt;
  6. clamp into [0.0, 1.0] by max(0.0, min(1.0, similarity)).
-/
noncomputable def calculate_similarity (features1 features2 : FeatMap) : ℝ :=
  if commonNames features1 features2 = [] then 0
  else if AllZero ((commonNames features1 features2).map (lookupF features1)) ∨
          AllZero ((commonNames features1 features2).map (lookupF features2)) then 0
  else if normSq ((commonNames features1 features2).map (lookupF features1)) < norm_floor ^ 2 ∨
          normSq ((commonNames features1 features2).map (lookupF features2)) < norm_floor ^ 2 then 0
  else
    max 0 (min 1
      (((dotQ ((commonNames features1 features2).map (lookupF features1))
              ((commonNames features1 features2).map (lookupF features2)) : ℚ) : ℝ) /
       (Real.sqrt ((normSq ((commonNames features1 features2).map (lookupF features1)) : ℚ) : ℝ) *
        Real.sqrt ((normSq ((commonNames features1 features2).map (lookupF features2)) : ℚ) : ℝ))))

/-! ## Feature extractor: voice_auth.py extract_voice_features (lines 32-146) -/

/-- Outcomes of the external collaborators used by one call to
extract_voice_features: the two librosa.load attempts (number of decoded
samples and sample rate, or failure), whether the pitch group (guarded by
its own inner try/except, and by the confident-frames check) succeeds,
whether the remaining feature computation raises an unexpected exception
(reaching the outer except), and the scalar descriptor values librosa
produces when it does not raise. -/
structure AudioEnv where
  load16k : Option (ℕ × ℕ)
  loadDefault : Option (ℕ × ℕ)
  pitchOk : Bool
  computeRaises : Bool
  featureVal : String → ℚ

/-- Result of one extraction call: the returned feature dictionary, plus
whether the per-call scratch file temp_voice_<uuid>.wav still exists on
disk when the call returns. -/
structure ExtractResult where
  features : FeatMap
  scratch_remains : Bool

/-- The features dictionary built on the successful path (voice_auth.py
lines 73-117), in source order. The three pitch features degrade to 0.0
when the pitch tracker fails or no frame is confident. -/
def computedFeatures (env : AudioEnv) : FeatMap :=
  [ ("pitch_mean", if env.pitchOk then env.featureVal "pitch_mean" else 0),
    ("pitch_std", if env.pitchOk then env.featureVal "pitch_std" else 0),
    ("pitch_range", if env.pitchOk then env.featureVal "pitch_range" else 0),
    ("spectral_centroid_mean", env.featureVal "spectral_centroid_mean"),
    ("spectral_centroid_std", env.featureVal "spectral_centroid_std"),
    ("mfcc_mean", env.featureVal "mfcc_mean"),
    ("mfcc_std", env.featureVal "mfcc_std"),
    ("energy_mean", env.featureVal "energy_mean"),
    ("energy_std", env.featureVal "energy_std"),
    ("zcr_mean", env.featureVal "zcr_mean"),
    ("zcr_std", env.featureVal "zcr_std"),
    ("rolloff_mean", env.featureVal "rolloff_mean"),
    ("rolloff_std", env.featureVal "rolloff_std") ]

/-- The hard-coded fallback dictionary returned by the outer except block
(voice_auth.py lines 130-146). -/
def fallback_features : FeatMap :=
  [ ("pitch_mean", 440.0),
    ("pitch_std", 50.0),
    ("pitch_range", 200.0),
    ("spectral_centroid_mean", 1000.0),
    ("spectral_centroid_std", 200.0),
    ("mfcc_mean", -25.0),
    ("mfcc_std", 100.0),
    ("energy_mean", 0.02),
    ("energy_std", 0.03),
    ("zcr_mean", 0.06),
    ("zcr_std", 0.02),
    ("rolloff_mean", 2000.0),
    ("rolloff_std", 500.0) ]

/-- Behaviour once a decode attempt has produced ylen samples at rate sr
(voice_auth.py lines 67-146):
  - fewer than 0.5 seconds of audio: os.remove(temp_path); return the
    empty dictionary;
  - an unexpected exception during feature computation reaches the outer
    except block, which returns the fallback dictionary WITHOUT removing
    the scratch file (lines 125-146 contain no os.remove);
  - otherwise: os.remove(temp_path); return the computed features. -/
def extractDecoded (env : AudioEnv) (ylen sr : ℕ) : ExtractResult :=
  if (ylen : ℚ) < (sr : ℚ) * 0.5 then ⟨[], false⟩
  else if env.computeRaises then ⟨fallback_features, true⟩
  else ⟨computedFeatures env, false⟩

/-- voice_auth.py extract_voice_features (lines 32-146): write the scratch
file, try librosa.load at 16 kHz, retry at the decoder default rate, and
on double failure os.remove the scratch file and return the empty
dictionary; otherwise continue with the decoded waveform. -/
def extract_voice_features (env : AudioEnv) : ExtractResult :=
  match env.load16k with
  | some (ylen, sr) => extractDecoded env ylen sr
  | none =>
    match env.loadDefault with
    | some (ylen, sr) => extractDecoded env ylen sr
    | none => ⟨[], false⟩

/-! ## Profile store and lifecycle: voice_auth.py create / update / verify -/

/-- One persisted voice profile record (the per-user JSON file): user id,
passphrase text, feature dictionary, creation timestamp, and the update
timestamp that is absent until the first update. -/
structure Profile where
  user_id : String
  passphrase : List Char
  features : FeatMap
  created_at : String
  updated_at : Option String

/-- The profile store: one optional record per user id. -/
abbrev Store := String → Option Profile

/-- voice_auth.py create_voice_profile (lines 148-184): extract features
from the enrollment recording; an empty dictionary fails the call with no
write; otherwise persist a fresh record (overwriting any existing one). -/
def create_voice_profile (store : Store) (user_id : String) (env : AudioEnv)
    (passphrase : List Char) (now : String) : Bool × Store :=
  if (extract_voice_features env).features = [] then (false, store)
  else
    (true, fun uid =>
      if uid = user_id then
        some { user_id := user_id, passphrase := passphrase,
               features := (extract_voice_features env).features,
               created_at := now, updated_at := none }
      else store uid)

/-- Key-wise merge performed by update_voice_profile (lines 322-329):
keys in both dictionaries are averaged, keys in exactly one side pass
through unchanged. -/
def mergedVal (old new : FeatMap) (key : String) : ℚ :=
  if key ∈ keysOf old ∧ key ∈ keysOf new then (lookupF old key + lookupF new key) / 2
  else if key ∈ keysOf old then lookupF old key
  else lookupF new key

/-- set(old_features.keys()) OR set(new_features.keys()): the union of the
two key sets. Python iterates a set in unspecified order; the model fixes
the order as old keys first, then fresh new keys, without duplicates. -/
def unionKeys (old new : FeatMap) : List String := ((keysOf old) ++ (keysOf new)).dedup

/-- The updated_features dictionary built by update_voice_profile. -/
def mergeFeatures (old new : FeatMap) : FeatMap :=
  (unionKeys old new).map (fun key => (key, mergedVal old new key))

/-- voice_auth.py update_voice_profile (lines 293-343): extract new
features (empty extraction fails the call with no write); with no
existing profile fall back to create_voice_profile with the default
passphrase; otherwise overwrite the record with merged features and a
fresh updated_at, leaving the other fields as loaded from disk. -/
def update_voice_profile (store : Store) (user_id : String) (env : AudioEnv)
    (now : String) : Bool × Store :=
  if (extract_voice_features env).features = [] then (false, store)
  else
    match store user_id with
    | none => create_voice_profile store user_id env ("Hello Emora").toList now
    | some profile =>
      (true, fun uid =>
        if uid = user_id then
          some { profile with
                 features := mergeFeatures profile.features (extract_voice_features env).features,
                 updated_at := some now }
        else store uid)

/-! ## Verification orchestrator: voice_auth.py verify_voice (lines 186-236) and the app.py route (lines 676-753) -/

/-- The fixed acceptance threshold self.similarity_threshold = 0.50
(voice_auth.py line 23). -/
noncomputable def similarity_threshold : ℝ := 0.50

/-- voice_auth.py verify_voice (lines 186-236), returning the Python pair
(is_authenticated, confidence): a missing profile or an empty extraction
gives (False, 0.0); otherwise the confidence is the similarity between
the stored and the fresh features, and is_authenticated compares it
against the fixed threshold. -/
noncomputable def verify_voice (store : Store) (user_id : String) (env : AudioEnv) : Prop × ℝ :=
  match store user_id with
  | none => (False, 0)
  | some profile =>
    if (extract_voice_features env).features = [] then (False, 0)
    else
      (calculate_similarity profile.features (extract_voice_features env).features ≥
         similarity_threshold,
       calculate_similarity profile.features (extract_voice_features env).features)

/-- The fields of the JSON response of the app.py verification route that
the claims are about. -/
structure VerifyResponse where
  authenticated : Prop
  confidence : ℝ

/-- app.py verify_voice route (lines 676-753), after the request has been
decoded: call voice_auth.verify_voice, read the stored passphrase back via
get_profile_info (empty string when the profile is absent), strip both the
expected and the spoken phrase, compare their normalizations, and answer
authenticated = is_authenticated AND phrase_match with the confidence
reported unconditionally. -/
noncomputable def app_verify_voice (store : Store) (user_id : String) (env : AudioEnv)
    (transcription : List Char) : VerifyResponse :=
  let result := verify_voice store user_id env
  let expected_phrase := pyStrip (match store user_id with
    | some profile => profile.passphrase
    | none => [])
  let spoken_phrase := pyStrip transcription
  { authenticated := result.1 ∧ normalize_phrase expected_phrase = normalize_phrase spoken_phrase,
    confidence := result.2 }

/-! ## Concrete instances used by the claim witnesses -/

/-- A decode environment whose feature computation raises: 1 second of
audio decoded at 16 kHz, then an unexpected exception. -/
def env_raise : AudioEnv :=
  { load16k := some (16000, 16000), loadDefault := none,
    pitchOk := true, computeRaises := true, featureVal := fun _ => 0 }

/-- A healthy decode environment: 1 second at 16 kHz, no exception,
every descriptor equal to 1. -/
def env_ok : AudioEnv :=
  { load16k := some (16000, 16000), loadDefault := none,
    pitchOk := true, computeRaises := false, featureVal := fun _ => 1 }

/-- A decode environment with audio shorter than 0.5 seconds: 1000
samples at 16 kHz. -/
def env_short : AudioEnv :=
  { load16k := some (1000, 16000), loadDefault := none,
    pitchOk := true, computeRaises := false, featureVal := fun _ => 1 }

/-- A small stored profile used by the witnesses. -/
def profile_alice : Profile :=
  { user_id := "alice", passphrase := ("Hello Emora").toList,
    features := [("pitch_mean", 440), ("energy_mean", 2)],
    created_at := "2025-01-01", updated_at := none }

/-- A one-user store holding profile_alice. -/
def store_alice : Store := fun uid => if uid = "alice" then some profile_alice else none

/-! ## Helper lemmas about the similarity engine -/

/-- A dot product of a vector with itself is a sum of squares, hence nonnegative. -/
lemma dotQ_self_nonneg (v : List ℚ) : 0 ≤ dotQ v v := by
  induction v with
  | nil => simp [dotQ]
  | cons x xs ih =>
    simp only [dotQ, List.zip_cons_cons, List.map_cons, List.sum_cons] at *
    exact add_nonneg (mul_self_nonneg x) ih

/-- Each squared entry is a lower bound on the squared norm. -/
lemma sq_mem_le_dotQ_self (v : List ℚ) (x : ℚ) (hx : x ∈ v) : x * x ≤ dotQ v v := by
  induction v with
  | nil => cases hx
  | cons a as ih =>
    have hcons : dotQ (a :: as) (a :: as) = a * a + dotQ as as := by
      simp [dotQ]
    rw [hcons]
    rcases List.mem_cons.mp hx with h | h
    · rw [h]
      exact le_add_of_nonneg_right (dotQ_self_nonneg as)
    · exact le_trans (ih h) (le_add_of_nonneg_left (mul_self_nonneg a))

lemma insertSorted_ne_nil (k : String) (l : List String) : insertSorted k l ≠ [] := by
  cases l with
  | nil => simp [insertSorted]
  | cons x xs =>
    simp only [insertSorted]
    split <;> simp

lemma sortKeys_eq_nil_iff (l : List String) : sortKeys l = [] ↔ l = [] := by
  cases l with
  | nil => simp [sortKeys]
  | cons x xs => simp [sortKeys, insertSorted_ne_nil]

/-- A nonempty mapping compared with itself has a nonempty common-key list. -/
lemma commonNames_self_ne_nil (f : FeatMap) (hf : f ≠ []) : commonNames f f ≠ [] := by
  unfold commonNames
  rw [Ne, sortKeys_eq_nil_iff, List.dedup_eq_nil]
  have hkeys : keysOf f ≠ [] := by
    simpa [keysOf] using hf
  intro hfil
  rcases List.exists_mem_of_ne_nil _ hkeys with ⟨a, ha⟩
  have hna := (List.filter_eq_nil_iff.mp hfil) a ha
  simp only [decide_eq_true_eq] at hna
  exact hna ha

/-- Self-similarity is exactly 1 whenever none of the degenerate guards
fires: the common-key list is nonempty, the vector over it is not all
zeros, and its squared norm is at least the squared floor. -/
lemma sim_self_aux (f : FeatMap) (h1 : commonNames f f ≠ [])
    (h2 : ¬ AllZero ((commonNames f f).map (lookupF f)))
    (h3 : ¬ normSq ((commonNames f f).map (lookupF f)) < norm_floor ^ 2) :
    calculate_similarity f f = 1 := by
  unfold calculate_similarity
  rw [if_neg h1, if_neg (not_or.mpr ⟨h2, h2⟩), if_neg (not_or.mpr ⟨h3, h3⟩)]
  have hnn : (0:ℚ) ≤ normSq ((commonNames f f).map (lookupF f)) := dotQ_self_nonneg _
  have hpos : (0:ℚ) < normSq ((commonNames f f).map (lookupF f)) :=
    lt_of_lt_of_le (by norm_num [norm_floor]) (not_lt.mp h3)
  rw [Real.mul_self_sqrt (by exact_mod_cast hnn)]
  have hdot : dotQ ((commonNames f f).map (lookupF f)) ((commonNames f f).map (lookupF f))
      = normSq ((commonNames f f).map (lookupF f)) := rfl
  rw [hdot, div_self (by exact_mod_cast hpos.ne')]
  norm_num

/-- Self-similarity is 1 as soon as some common key carries a value whose
square reaches the squared floor. -/
lemma sim_self_of_entry (f : FeatMap) (k : String) (hk : k ∈ commonNames f f)
    (hbig : norm_floor ^ 2 ≤ lookupF f k * lookupF f k) :
    calculate_similarity f f = 1 := by
  have hmem : lookupF f k ∈ (commonNames f f).map (lookupF f) := List.mem_map_of_mem _ hk
  apply sim_self_aux
  · exact List.ne_nil_of_mem hk
  · intro hAZ
    have h0 : lookupF f k = 0 := hAZ _ hmem
    rw [h0] at hbig
    norm_num [norm_floor] at hbig
  · intro hlt
    have hle := le_trans hbig (sq_mem_le_dotQ_self _ _ hmem)
    exact absurd hlt (not_lt.mpr hle)

/-! ## Helper lemmas about extraction, merging and the store -/

lemma extract_env_ok_eq : extract_voice_features env_ok = ⟨computedFeatures env_ok, false⟩ := by
  show extractDecoded env_ok 16000 16000 = _
  unfold extractDecoded
  rw [if_neg (by norm_num), if_neg (by decide)]

lemma extract_env_short_eq : extract_voice_features env_short = ⟨[], false⟩ := by
  show extractDecoded env_short 1000 16000 = _
  unfold extractDecoded
  rw [if_pos (by norm_num)]

lemma extract_env_raise_eq : extract_voice_features env_raise = ⟨fallback_features, true⟩ := by
  show extractDecoded env_raise 16000 16000 = _
  unfold extractDecoded
  rw [if_neg (by norm_num), if_pos (by decide)]

lemma lookupF_head (k : String) (v : ℚ) (rest : FeatMap) : lookupF ((k, v) :: rest) k = v := by
  simp [lookupF]

/-- Looking a key up in the graph of a function over a key list gives the
function value at that key. -/
lemma lookupF_map_graph (g : String → ℚ) (ks : List String) (k : String) (hk : k ∈ ks) :
    lookupF (ks.map (fun key => (key, g key))) k = g k := by
  induction ks with
  | nil => cases hk
  | cons a as ih =>
    simp only [List.map_cons, lookupF]
    by_cases hak : a = k
    · rw [if_pos hak, hak]
    · rw [if_neg hak]
      rcases List.mem_cons.mp hk with h | h
      · exact absurd h.symm hak
      · exact ih h

lemma mem_unionKeys (old new : FeatMap) (k : String) :
    k ∈ unionKeys old new ↔ k ∈ keysOf old ∨ k ∈ keysOf new := by
  simp [unionKeys]

lemma keysOf_mergeFeatures (old new : FeatMap) :
    keysOf (mergeFeatures old new) = unionKeys old new := by
  unfold keysOf mergeFeatures
  rw [List.map_map]
  rw [show (Prod.fst ∘ fun key => ((key, mergedVal old new key) : String × ℚ)) = id from rfl,
      List.map_id]

lemma lookupF_mergeFeatures (old new : FeatMap) (k : String) (hk : k ∈ unionKeys old new) :
    lookupF (mergeFeatures old new) k = mergedVal old new k :=
  lookupF_map_graph _ _ _ hk

/-! ## Claim theorems -/

/-- C1: for every user with a stored profile and every verification
recording whose feature extraction returns a non-empty mapping, the
verification route reports accepted = true if and only if the similarity
score between the stored features and the newly extracted features is at
least the fixed threshold 0.50 AND the normalized stored passphrase
equals the normalized spoken transcript; the confidence score (the raw
similarity) is reported in all cases, including on phrase mismatch. -/
theorem verify_route_accepts_iff_threshold_and_phrase
    (store : Store) (user_id : String) (p : Profile) (env : AudioEnv)
    (transcription : List Char)
    (hp : store user_id = some p)
    (hne : (extract_voice_features env).features ≠ []) :
    ((app_verify_voice store user_id env transcription).authenticated ↔
      (calculate_similarity p.features (extract_voice_features env).features ≥
         similarity_threshold ∧
       normalize_phrase (pyStrip p.passphrase) = normalize_phrase (pyStrip transcription))) ∧
    (app_verify_voice store user_id env transcription).confidence =
      calculate_similarity p.features (extract_voice_features env).features ∧
    similarity_threshold = 0.50 := by
  have hv : verify_voice store user_id env =
      ((calculate_similarity p.features (extract_voice_features env).features ≥
          similarity_threshold : Prop),
       calculate_similarity p.features (extract_voice_features env).features) := by
    unfold verify_voice
    rw [hp]
    show (if (extract_voice_features env).features = [] then ((False : Prop), (0:ℝ))
          else ((calculate_similarity p.features (extract_voice_features env).features ≥
                   similarity_threshold : Prop),
                calculate_similarity p.features (extract_voice_features env).features)) = _
    rw [if_neg hne]
  simp only [app_verify_voice]
  rw [hv, hp]
  exact ⟨Iff.rfl, rfl, rfl⟩

/-- C1 witness: the route evaluated at the concrete one-user store, a
healthy decode environment and the default passphrase transcript. -/
theorem verify_route_accepts_iff_threshold_and_phrase_witness :
    ((app_verify_voice store_alice "alice" env_ok ("Hello Emora").toList).authenticated ↔
      (calculate_similarity profile_alice.features (extract_voice_features env_ok).features ≥
         similarity_threshold ∧
       normalize_phrase (pyStrip profile_alice.passphrase) =
         normalize_phrase (pyStrip ("Hello Emora").toList))) ∧
    (app_verify_voice store_alice "alice" env_ok ("Hello Emora").toList).confidence =
      calculate_similarity profile_alice.features (extract_voice_features env_ok).features ∧
    similarity_threshold = 0.50 :=
  verify_route_accepts_iff_threshold_and_phrase store_alice "alice" profile_alice env_ok
    ("Hello Emora").toList rfl (by rw [extract_env_ok_eq]; decide)

/-- C2 counterexample: the claim quantifies over every feature mapping,
including the empty mapping, but the self-similarity of the empty mapping
is 0.0 (the empty-intersection guard fires), not 1.0. -/
theorem calculate_similarity_empty_self_ne_one :
    calculate_similarity ([] : FeatMap) ([] : FeatMap) = 0 ∧
    calculate_similarity ([] : FeatMap) ([] : FeatMap) ≠ 1 := by
  have h : calculate_similarity ([] : FeatMap) ([] : FeatMap) = 0 := by
    unfold calculate_similarity
    rw [if_pos (by decide : commonNames ([] : FeatMap) [] = [])]
  exact ⟨h, by rw [h]; norm_num⟩

/-- C2 (amended): for every feature mapping f whose self-comparison is
non-degenerate — f is nonempty, the vector over the sorted common keys is
not entirely zero, and its squared Euclidean norm is at least the squared
floor (1e-8)^2 — calculate_similarity f f is exactly 1. Degenerate
mappings (empty, all-zero, or of near-zero norm) instead yield 0. -/
theorem calculate_similarity_self_eq_one_of_nondegenerate (f : FeatMap) (hf : f ≠ [])
    (h2 : ¬ AllZero ((commonNames f f).map (lookupF f)))
    (h3 : ¬ normSq ((commonNames f f).map (lookupF f)) < norm_floor ^ 2) :
    calculate_similarity f f = 1 :=
  sim_self_aux f (commonNames_self_ne_nil f hf) h2 h3

/-- C2 witness: self-similarity of a concrete two-feature mapping is 1. -/
theorem calculate_similarity_self_eq_one_of_nondegenerate_witness :
    [("pitch_mean", (440:ℚ)), ("energy_mean", 2)] ≠ ([] : FeatMap) ∧
    calculate_similarity [("pitch_mean", (440:ℚ)), ("energy_mean", 2)]
      [("pitch_mean", (440:ℚ)), ("energy_mean", 2)] = 1 :=
  ⟨by decide,
   calculate_similarity_self_eq_one_of_nondegenerate _ (by decide) (by decide)
     (by
       have hv : (commonNames [("pitch_mean", (440:ℚ)), ("energy_mean", 2)]
           [("pitch_mean", (440:ℚ)), ("energy_mean", 2)]).map
           (lookupF [("pitch_mean", (440:ℚ)), ("energy_mean", 2)]) = [2, 440] := by decide
       rw [hv]
       norm_num [normSq, dotQ, norm_floor])⟩

/-- C3: updating an existing profile with a non-empty extraction returns
success and stores, under the user id, a record whose features assign to
each key in both dictionaries the arithmetic mean of the two values, to
each key in exactly one dictionary that side value unchanged, and whose
key set is the union of the two key sets. -/
theorem update_voice_profile_averages_common_keys
    (store : Store) (user_id : String) (env : AudioEnv) (now : String) (p : Profile)
    (hp : store user_id = some p)
    (hne : (extract_voice_features env).features ≠ []) :
    (update_voice_profile store user_id env now).1 = true ∧
    ∃ q : Profile,
      (update_voice_profile store user_id env now).2 user_id = some q ∧
      (∀ k, k ∈ keysOf p.features → k ∈ keysOf (extract_voice_features env).features →
        lookupF q.features k =
          (lookupF p.features k + lookupF (extract_voice_features env).features k) / 2) ∧
      (∀ k, k ∈ keysOf p.features → k ∉ keysOf (extract_voice_features env).features →
        lookupF q.features k = lookupF p.features k) ∧
      (∀ k, k ∉ keysOf p.features → k ∈ keysOf (extract_voice_features env).features →
        lookupF q.features k = lookupF (extract_voice_features env).features k) ∧
      (∀ k, k ∈ keysOf q.features ↔
        k ∈ keysOf p.features ∨ k ∈ keysOf (extract_voice_features env).features) := by
  have hstep : update_voice_profile store user_id env now =
      (true, fun uid =>
        if uid = user_id then
          some { p with
                 features := mergeFeatures p.features (extract_voice_features env).features,
                 updated_at := some now }
        else store uid) := by
    unfold update_voice_profile
    rw [if_neg hne, hp]
  refine ⟨by rw [hstep], ?_⟩
  refine ⟨{ p with
            features := mergeFeatures p.features (extract_voice_features env).features,
            updated_at := some now }, by rw [hstep]; exact if_pos rfl, ?_, ?_, ?_, ?_⟩
  · intro k h1 h2
    have hu : k ∈ unionKeys p.features (extract_voice_features env).features :=
      (mem_unionKeys _ _ _).mpr (Or.inl h1)
    show lookupF (mergeFeatures p.features (extract_voice_features env).features) k = _
    rw [lookupF_mergeFeatures _ _ _ hu]
    unfold mergedVal
    rw [if_pos ⟨h1, h2⟩]
  · intro k h1 h2
    have hu : k ∈ unionKeys p.features (extract_voice_features env).features :=
      (mem_unionKeys _ _ _).mpr (Or.inl h1)
    show lookupF (mergeFeatures p.features (extract_voice_features env).features) k = _
    rw [lookupF_mergeFeatures _ _ _ hu]
    unfold mergedVal
    rw [if_neg (fun hb => h2 hb.2), if_pos h1]
  · intro k h1 h2
    have hu : k ∈ unionKeys p.features (extract_voice_features env).features :=
      (mem_unionKeys _ _ _).mpr (Or.inr h2)
    show lookupF (mergeFeatures p.features (extract_voice_features env).features) k = _
    rw [lookupF_mergeFeatures _ _ _ hu]
    unfold mergedVal
    rw [if_neg (fun hb => h1 hb.1), if_neg h1]
  · intro k
    show k ∈ keysOf (mergeFeatures p.features (extract_voice_features env).features) ↔ _
    rw [keysOf_mergeFeatures]
    exact mem_unionKeys _ _ _

/-- C3 witness: the update evaluated on the concrete one-user store with a
healthy decode environment. -/
theorem update_voice_profile_averages_common_keys_witness :
    (update_voice_profile store_alice "alice" env_ok "2025-03-03").1 = true ∧
    ∃ q : Profile,
      (update_voice_profile store_alice "alice" env_ok "2025-03-03").2 "alice" = some q ∧
      (∀ k, k ∈ keysOf profile_alice.features →
        k ∈ keysOf (extract_voice_features env_ok).features →
        lookupF q.features k =
          (lookupF profile_alice.features k +
           lookupF (extract_voice_features env_ok).features k) / 2) ∧
      (∀ k, k ∈ keysOf profile_alice.features →
        k ∉ keysOf (extract_voice_features env_ok).features →
        lookupF q.features k = lookupF profile_alice.features k) ∧
      (∀ k, k ∉ keysOf profile_alice.features →
        k ∈ keysOf (extract_voice_features env_ok).features →
        lookupF q.features k = lookupF (extract_voice_features env_ok).features k) ∧
      (∀ k, k ∈ keysOf q.features ↔
        k ∈ keysOf profile_alice.features ∨
        k ∈ keysOf (extract_voice_features env_ok).features) :=
  update_voice_profile_averages_common_keys store_alice "alice" env_ok "2025-03-03"
    profile_alice rfl (by rw [extract_env_ok_eq]; decide)

/-- C4 (code bug): on the unexpected-exception exit path, the
extraction does NOT remove the scratch file it wrote: with a successful
decode of one second at 16 kHz followed by an exception during feature
computation, the call returns the fallback dictionary while the per-call
temp_voice file is still on disk, contradicting the requirement that the
scratch file be removed on every exit path. The outer except block of
voice_auth.py (lines 125-146) contains no os.remove. -/
theorem extract_voice_features_scratch_leak_on_exception :
    (extract_voice_features env_raise).features = fallback_features ∧
    (extract_voice_features env_raise).scratch_remains = true := by
  rw [extract_env_raise_eq]
  exact ⟨rfl, rfl⟩

/-- C5: when an unexpected exception escapes the extraction pipeline
(decode succeeded, audio long enough, computation raises), the extractor
returns the fixed non-empty 13-entry fallback dictionary; enrollment with
such a recording therefore succeeds, and the self-similarity of the
fallback dictionary is exactly 1, which clears the fixed acceptance
threshold — the acoustic factor accepts with confidence 1.0 without any
genuine voice evidence. -/
theorem fallback_features_enroll_and_max_similarity
    (env : AudioEnv) (store : Store) (user_id : String)
    (passphrase : List Char) (now : String) (ylen sr : ℕ)
    (h16 : env.load16k = some (ylen, sr))
    (hlen : ¬ ((ylen : ℚ) < (sr : ℚ) * 0.5))
    (hraise : env.computeRaises = true) :
    (extract_voice_features env).features = fallback_features ∧
    fallback_features ≠ [] ∧
    (keysOf fallback_features).length = 13 ∧
    (create_voice_profile store user_id env passphrase now).1 = true ∧
    calculate_similarity fallback_features fallback_features = 1 ∧
    similarity_threshold ≤ calculate_similarity fallback_features fallback_features := by
  have h1 : extract_voice_features env = extractDecoded env ylen sr := by
    unfold extract_voice_features
    rw [h16]
  have hex : extract_voice_features env = ⟨fallback_features, true⟩ := by
    rw [h1]
    unfold extractDecoded
    rw [if_neg hlen, if_pos hraise]
  have hfne : fallback_features ≠ ([] : FeatMap) := by decide
  have hl : lookupF fallback_features "pitch_mean" = 440.0 := lookupF_head _ _ _
  have hsim : calculate_similarity fallback_features fallback_features = 1 := by
    apply sim_self_of_entry fallback_features "pitch_mean"
    · decide
    · rw [hl]
      norm_num [norm_floor]
  have hc : (create_voice_profile store user_id env passphrase now).1 = true := by
    simp only [create_voice_profile, hex]
    rw [if_neg hfne]
  exact ⟨by rw [hex], hfne, by decide, hc, hsim,
    by rw [hsim]; norm_num [similarity_threshold]⟩

/-- C5 witness: the fallback pipeline evaluated on the concrete raising
environment and the concrete one-user store. -/
theorem fallback_features_enroll_and_max_similarity_witness :
    (extract_voice_features env_raise).features = fallback_features ∧
    fallback_features ≠ [] ∧
    (keysOf fallback_features).length = 13 ∧
    (create_voice_profile store_alice "carol" env_raise ("Hello Emora").toList "t").1 = true ∧
    calculate_similarity fallback_features fallback_features = 1 ∧
    similarity_threshold ≤ calculate_similarity fallback_features fallback_features :=
  fallback_features_enroll_and_max_similarity env_raise store_alice "carol"
    ("Hello Emora").toList "t" 16000 16000 rfl (by norm_num) rfl

/-- C6: for any two non-empty feature mappings the similarity score is
within the unit interval: the final clamp max(0.0, min(1.0, s)) and the
degenerate 0.0 returns keep every result between 0 and 1. -/
theorem calculate_similarity_mem_unit_interval (f1 f2 : FeatMap)
    (h1 : f1 ≠ []) (h2 : f2 ≠ []) :
    0 ≤ calculate_similarity f1 f2 ∧ calculate_similarity f1 f2 ≤ 1 := by
  unfold calculate_similarity
  refine ⟨?_, ?_⟩ <;> (repeat' split) <;> norm_num

/-- C6 witness: the bounds evaluated at two concrete one-feature mappings. -/
theorem calculate_similarity_mem_unit_interval_witness :
    ([("pitch_mean", (440:ℚ))] ≠ ([] : FeatMap)) ∧ ([("zcr_mean", (1:ℚ))] ≠ ([] : FeatMap)) ∧
    (0 ≤ calculate_similarity [("pitch_mean", (440:ℚ))] [("zcr_mean", (1:ℚ))] ∧
     calculate_similarity [("pitch_mean", (440:ℚ))] [("zcr_mean", (1:ℚ))] ≤ 1) :=
  ⟨by decide, by decide,
   calculate_similarity_mem_unit_interval _ _ (by decide) (by decide)⟩

/-- C7: every degenerate comparison resolves to the score 0.0: if the key
intersection is empty, or either vector over the common keys is entirely
zero, or either squared norm is below the squared floor (the source
compares the Euclidean norm against 1e-8), the function returns exactly 0. -/
theorem calculate_similarity_degenerate_eq_zero (features1 features2 : FeatMap)
    (h : commonNames features1 features2 = [] ∨
         AllZero ((commonNames features1 features2).map (lookupF features1)) ∨
         AllZero ((commonNames features1 features2).map (lookupF features2)) ∨
         normSq ((commonNames features1 features2).map (lookupF features1)) < norm_floor ^ 2 ∨
         normSq ((commonNames features1 features2).map (lookupF features2)) < norm_floor ^ 2) :
    calculate_similarity features1 features2 = 0 := by
  unfold calculate_similarity
  split
  next => rfl
  next hn =>
    split
    next => rfl
    next hz =>
      split
      next => rfl
      next hs =>
        rcases h with h | h | h | h | h
        · exact absurd h hn
        · exact absurd (Or.inl h) hz
        · exact absurd (Or.inr h) hz
        · exact absurd (Or.inl h) hs
        · exact absurd (Or.inr h) hs

/-- C7 witness: two mappings with disjoint key sets score exactly 0. -/
theorem calculate_similarity_degenerate_eq_zero_witness :
    calculate_similarity [("aaa", (1:ℚ))] [("bbb", (2:ℚ))] = 0 :=
  calculate_similarity_degenerate_eq_zero _ _ (Or.inl (by decide))

/-- C8: the passphrase normalizer maps the input with the three irregular
contractions to exactly the expanded form: lower-casing happens first, the
irregular expansions fire before the generic suffix rules, punctuation is
stripped and surrounding whitespace trimmed. -/
theorem normalize_phrase_contraction_example :
    normalize_phrase ("I\x27m can\x27t won\x27t").toList = ("i am cannot will not").toList := by
  decide

/-- C9: if feature extraction over the enrollment recording yields an
empty mapping, enrollment returns failure and performs no write: the
whole store (hence any pre-existing record, and the absence of a record
for the enrolled id) is returned unchanged. -/
theorem create_voice_profile_empty_extraction_no_write
    (store : Store) (user_id : String) (env : AudioEnv)
    (passphrase : List Char) (now : String)
    (h : (extract_voice_features env).features = []) :
    create_voice_profile store user_id env passphrase now = (false, store) := by
  unfold create_voice_profile
  rw [if_pos h]

/-- C9 witness: audio of 1000 samples at 16 kHz is shorter than 0.5
seconds, the extraction is empty, and the enrollment call fails with the
store untouched. -/
theorem create_voice_profile_empty_extraction_no_write_witness :
    (extract_voice_features env_short).features = [] ∧
    create_voice_profile store_alice "bob" env_short ("Hello Emora").toList "2025-02-02" =
      (false, store_alice) := by
  have h : (extract_voice_features env_short).features = [] := by rw [extract_env_short_eq]
  exact ⟨h, create_voice_profile_empty_extraction_no_write _ _ _ _ _ h⟩

/-- C10: a successful update of an existing profile modifies only the
features and updated_at fields of the stored record: user_id, passphrase
and created_at are preserved unchanged, the features become the key-wise
merge, and updated_at becomes the fresh timestamp. -/
theorem update_voice_profile_preserves_identity_fields
    (store : Store) (user_id : String) (env : AudioEnv) (now : String) (p : Profile)
    (hp : store user_id = some p)
    (hne : (extract_voice_features env).features ≠ []) :
    ∃ q : Profile,
      (update_voice_profile store user_id env now).2 user_id = some q ∧
      q.user_id = p.user_id ∧ q.passphrase = p.passphrase ∧ q.created_at = p.created_at ∧
      q.features = mergeFeatures p.features (extract_voice_features env).features ∧
      q.updated_at = some now := by
  have hstep : update_voice_profile store user_id env now =
      (true, fun uid =>
        if uid = user_id then
          some { p with
                 features := mergeFeatures p.features (extract_voice_features env).features,
                 updated_at := some now }
        else store uid) := by
    unfold update_voice_profile
    rw [if_neg hne, hp]
  exact ⟨{ p with
           features := mergeFeatures p.features (extract_voice_features env).features,
           updated_at := some now },
    by rw [hstep]; exact if_pos rfl, rfl, rfl, rfl, rfl, rfl⟩

/-- C10 witness: the field preservation evaluated on the concrete
one-user store with a healthy decode environment. -/
theorem update_voice_profile_preserves_identity_fields_witness :
    ∃ q : Profile,
      (update_voice_profile store_alice "alice" env_ok "2025-04-04").2 "alice" = some q ∧
      q.user_id = profile_alice.user_id ∧ q.passphrase = profile_alice.passphrase ∧
      q.created_at = profile_alice.created_at ∧
      q.features = mergeFeatures profile_alice.features (extract_voice_features env_ok).features ∧
      q.updated_at = some "2025-04-04" :=
  update_voice_profile_preserves_identity_fields store_alice "alice" env_ok "2025-04-04"
    profile_alice rfl (by rw [extract_env_ok_eq]; decide)
